import Mathlib

/-!
Shallow embedding of the voice-interaction controller of the punjabi_sts
repository (the `gpio/` Node.js application): `AudioHandler`
(audio_handler.js), `GpioHandler` (gpio_handler.js), `AIServices`
(ai_services.js) and the `PunjabiPiApp` controller (main.js), together with
theorems settling the frozen claims about them.

Modelling conventions:
* JavaScript runs on a single-threaded event loop, so every callback body
  (button handler, timer callback, poll tick) is embedded as a total Lean
  function from state to state plus a list of externally observable actions.
* Network and device results (speech-to-text, the provider chat API,
  text-to-speech) are supplied by an `Oracle` argument, one per callback
  invocation, mirroring the awaited results of the corresponding calls.
* Files on disk (`temp_recording.wav`, `temp_playback.mp3`) are booleans plus
  an abstract byte count; GPIO lines carry an `exported` flag because
  `writeSync` on an unexported line throws (the code catches and ignores it).
-/

namespace PunjabiSts

/-- A conversation message, `{role, content}` as pushed by `processAudio`. -/
structure Msg where
  role : String
  content : String
deriving DecidableEq, Repr

/-- Relevant constants of `gpio/config.js` (default values, no env overrides). -/
def OUTPUT_LANGUAGE_CODE : String := "pa-IN"

/-- `config.ENGLISH_VOICE_NAME` default. -/
def ENGLISH_VOICE_NAME : String := "en-US-Standard-C"

/-- `config.PUNJABI_VOICE_NAMES` default list. -/
def PUNJABI_VOICE_NAMES : List String :=
  ["pa-IN-Standard-A", "pa-IN-Standard-B", "pa-IN-Standard-C",
   "pa-IN-Wavenet-A", "pa-IN-Wavenet-B", "pa-IN-Wavenet-C"]

/-- `config.DEFAULT_MODEL` default. -/
def DEFAULT_MODEL : String := "gpt"

/-- `this.availableModels` in `main.js` (`["gpt", "openrouter", "fireworks"]`). -/
def availableModels : List String := ["gpt", "openrouter", "fireworks"]

/-- Which API keys/clients of `AIServices` are configured (constructor of
ai_services.js: `this.openai` is non-null, and the OpenRouter/Fireworks keys
are set and not the placeholder value). -/
structure Keys where
  openaiOk : Bool
  openrouterOk : Bool
  fireworksOk : Bool
deriving DecidableEq, Repr

/-- State of `AudioHandler` (audio_handler.js) plus the two temp files it
manages on disk. `fileData` is the abstract content of `temp_recording.wav`
(`none` = file absent). -/
structure AudioState where
  isRecording : Bool
  hasRec : Bool
  tempRecordingExists : Bool
  tempPlaybackExists : Bool
  fileData : Option Nat
deriving DecidableEq, Repr

/-- State of the GPIO lines owned by `GpioHandler` (gpio_handler.js).
`exported` is false after `cleanup()` unexports the lines; a `writeSync` on an
unexported line throws and is caught, leaving the line unchanged. -/
structure GpioState where
  exported : Bool
  statusOn : Bool
  activeOn : Bool
deriving DecidableEq, Repr

/-- One successful `writeSync` on an indicator line, recorded in order during
shutdown. -/
inductive LedWrite where
  | status (b : Bool)
  | active (b : Bool)
deriving DecidableEq, Repr

/-- Externally observable actions of a callback body. -/
inductive Action where
  | startCapture
  | sttCall
  | inferCall (model : String)
  | speak (text : String) (lang : String) (voice : String)
  | feedback (kind : String)
  | logWarn (msg : String)
deriving DecidableEq, Repr

/-- Awaited results of the external calls made during one callback:
`stt` is the `speechToText` result (`none` = the JS `null` error return,
`some t` a transcript, possibly empty), `api` the provider chat-completion
outcome inside `getAiResponse` (`.ok content` or a thrown/rejected error),
`ttsOk` whether `textToSpeech` returns audio. -/
structure Oracle where
  stt : Option String
  api : Except Unit String
  ttsOk : Bool
deriving Repr

/-- Full state of the `PunjabiPiApp` controller (main.js constructor fields),
plus the poll-interval flag for the `setInterval` armed in
`handleRecordButtonPressed`. -/
structure AppState where
  aiKeys : Keys
  isInteracting : Bool
  currentModel : String
  currentPunjabiVoiceIndex : Nat
  currentPunjabiVoice : String
  conversationHistory : List Msg
  gpio : GpioState
  audio : AudioState
  pollArmed : Bool
deriving Repr

namespace AudioHandler

/-- `AudioHandler.startRecording`: rejected (returns false) if already
recording; otherwise sets `isRecording`, creates the recorder object and the
`temp_recording.wav` write stream, and returns true. -/
def startRecording (a : AudioState) : AudioState × Bool :=
  if a.isRecording then (a, false)
  else ({ a with isRecording := true,
                 hasRec := true,
                 tempRecordingExists := true,
                 fileData := some 0 }, true)

/-- `AudioHandler.stopRecording`: if `!this.isRecording || !this.recording`
it returns `null` with no side effects; otherwise it stops the recorder,
clears `isRecording`, and resolves with the bytes read back from
`temp_recording.wav`. The `fs.unlink` of the temp file is commented out in
the source, so the file is left on disk. -/
def stopRecording (a : AudioState) : AudioState × Option Nat :=
  if ¬a.isRecording ∨ ¬a.hasRec then (a, none)
  else ({ a with isRecording := false }, a.fileData)

/-- `AudioHandler.playAudioMp3`: rejects a null/empty buffer; otherwise writes
`temp_playback.mp3`, plays it, and unlinks the temp file in the playback
callback (on both playback success and playback error). The net effect once
playback completes is that the playback temp file is gone. -/
def playAudioMp3 (a : AudioState) (buf : Option Nat) : AudioState :=
  match buf with
  | none => a
  | some n => if n = 0 then a else { a with tempPlaybackExists := false }

/-- `AudioHandler.cleanup`: deletes `temp_recording.wav` if it exists
(`fs.existsSync` guard plus try/catch, so it tolerates an absent file). -/
def cleanup (a : AudioState) : AudioState :=
  { a with tempRecordingExists := false }

end AudioHandler

namespace GpioHandler

/-- `GpioHandler.setStatusLed`: `writeSync` wrapped in try/catch; on an
unexported line the write throws and is swallowed. -/
def setStatusLed (g : GpioState) (b : Bool) : GpioState :=
  if g.exported then { g with statusOn := b } else g

/-- `GpioHandler.setActiveLed`: same try/catch wrapper as `setStatusLed`. -/
def setActiveLed (g : GpioState) (b : Bool) : GpioState :=
  if g.exported then { g with activeOn := b } else g

/-- `setStatusLed`, also recording the successful indicator write (used for
the shutdown trace). -/
def setStatusLedE (g : GpioState) (b : Bool) : GpioState × List LedWrite :=
  if g.exported then ({ g with statusOn := b }, [LedWrite.status b]) else (g, [])

/-- `GpioHandler.cleanup`: inside one try/catch it writes the status line to
0, then the active line to 0, then unexports every line. If the lines are
already unexported the first write throws and the whole block is skipped. -/
def cleanup (g : GpioState) : GpioState × List LedWrite :=
  if g.exported then
    ({ exported := false, statusOn := false, activeOn := false },
     [LedWrite.status false, LedWrite.active false])
  else (g, [])

end GpioHandler

/-- `String.prototype.trim`: strips leading and trailing whitespace.
(Embedded directly over the character list so that concrete calls evaluate
inside the kernel.) -/
def jsTrim (s : String) : String :=
  ⟨((s.data.dropWhile Char.isWhitespace).reverse.dropWhile
      Char.isWhitespace).reverse⟩

namespace AIServices

/-- `AIServices.getAiResponse` (ai_services.js): selects a provider by the
`model` string; a missing key/client or an unsupported model name returns a
fixed English error string; a thrown/rejected API call is caught and returns
`"Error communicating with <model> API."`; a successful call returns the
trimmed message content. Every path returns a plain string — the function
never throws. -/
def getAiResponse (k : Keys) (prompt : String) (model : String)
    (hist : List Msg) (api : Except Unit String) : String :=
  if model = "gpt" then
    if ¬k.openaiOk then "OpenAI API key not configured or client not initialized."
    else
      match api with
      | Except.ok content => jsTrim content
      | Except.error _ => "Error communicating with " ++ model ++ " API."
  else if model = "openrouter" then
    if ¬k.openrouterOk then "OpenRouter API key not configured."
    else
      match api with
      | Except.ok content => jsTrim content
      | Except.error _ => "Error communicating with " ++ model ++ " API."
  else if model = "fireworks" then
    if ¬k.fireworksOk then "Fireworks AI API key not configured."
    else
      match api with
      | Except.ok content => jsTrim content
      | Except.error _ => "Error communicating with " ++ model ++ " API."
  else "Unsupported AI model: " ++ model

end AIServices

namespace PunjabiPiApp

/-- The `finally` block of `processAudio`: clears `isInteracting` and turns
the active LED off. -/
def finishInteraction (s : AppState) : AppState :=
  { s with isInteracting := false, gpio := GpioHandler.setActiveLed s.gpio false }

/-- `PunjabiPiApp.announceMessage`: resolves the voice (explicit argument, or
the current Punjabi voice for Punjabi output, else the English voice), calls
`textToSpeech`, and on success plays the MP3; a null TTS result is only
logged. -/
def announceMessage (s : AppState) (text : String) (lang : String)
    (voice : Option String) (ttsOk : Bool) : AppState × List Action :=
  let v := match voice with
    | some v => v
    | none => if lang = OUTPUT_LANGUAGE_CODE then s.currentPunjabiVoice
              else ENGLISH_VOICE_NAME
  if ttsOk ∧ text ≠ "" then
    ({ s with audio := AudioHandler.playAudioMp3 s.audio (some 1) },
     [Action.speak text lang v])
  else (s, [])

/-- `PunjabiPiApp.processAudio`: STT, then (for a non-empty transcript) push
the user message, call `getAiResponse`, and on a truthy (non-empty) reply
push the assistant message, trim the history to its last 10 entries when it
exceeds 10, and announce the reply; an empty reply announces the fixed
apology; an empty transcript announces the no-speech message; a null STT
result announces the STT-error message. The `finally` block always clears
`isInteracting` and the active LED. -/
def processAudio (s : AppState) (ora : Oracle) : AppState × List Action :=
  match ora.stt with
  | some t =>
    if t ≠ "" then
      let h1 := s.conversationHistory ++ [⟨"user", t⟩]
      let resp := AIServices.getAiResponse s.aiKeys t s.currentModel h1 ora.api
      if resp ≠ "" then
        let h2 := h1 ++ [⟨"assistant", resp⟩]
        let h3 := if h2.length > 10 then h2.drop (h2.length - 10) else h2
        let s2 := { s with conversationHistory := h3 }
        let p := announceMessage s2 resp OUTPUT_LANGUAGE_CODE none ora.ttsOk
        (finishInteraction p.1,
         Action.sttCall :: Action.inferCall s.currentModel :: p.2)
      else
        let s1 := { s with conversationHistory := h1 }
        let p := announceMessage s1 "Sorry, I could not process that." "en-US"
          (some ENGLISH_VOICE_NAME) ora.ttsOk
        (finishInteraction p.1,
         Action.sttCall :: Action.inferCall s.currentModel ::
           (p.2 ++ [Action.feedback "error"]))
    else
      let p := announceMessage s "I did not catch that, please try again."
        "en-US" (some ENGLISH_VOICE_NAME) ora.ttsOk
      (finishInteraction p.1, Action.sttCall :: p.2)
  | none =>
      let p := announceMessage s "Sorry, there was an error understanding you."
        "en-US" (some ENGLISH_VOICE_NAME) ora.ttsOk
      (finishInteraction p.1,
       Action.sttCall :: (p.2 ++ [Action.feedback "error"]))

/-- `PunjabiPiApp.handleRecordButtonPressed`: ignored while `isInteracting`;
else, if a recording is somehow active, stops it and processes the data;
else marks the interaction active, lights the active LED, starts recording
and arms the 500 ms poll interval. -/
def handleRecordButtonPressed (s : AppState) (ora : Oracle) :
    AppState × List Action :=
  if s.isInteracting then
    (s, [Action.logWarn "Interaction already in progress. Button press ignored."])
  else if s.audio.isRecording then
    let q := AudioHandler.stopRecording s.audio
    let s1 := { s with audio := q.1, gpio := GpioHandler.setActiveLed s.gpio false }
    match q.2 with
    | some _ => processAudio s1 ora
    | none => (s1, [])
  else
    let s1 := { s with isInteracting := true,
                       gpio := GpioHandler.setActiveLed s.gpio true }
    let q := AudioHandler.startRecording s1.audio
    ({ s1 with audio := q.1, pollArmed := true },
     if q.2 then [Action.startCapture] else [])

/-- One tick of the `setInterval` poll armed in `handleRecordButtonPressed`:
once `isRecording` is false it clears the interval, turns the active LED off,
calls `stopRecording` again for the data, and either processes the data or
(on a null result) just clears `isInteracting`. -/
def pollTick (s : AppState) (ora : Oracle) : AppState × List Action :=
  if s.pollArmed ∧ ¬s.audio.isRecording then
    let s0 := { s with pollArmed := false,
                       gpio := GpioHandler.setActiveLed s.gpio false }
    let q := AudioHandler.stopRecording s0.audio
    let s1 := { s0 with audio := q.1 }
    match q.2 with
    | some _ => processAudio s1 ora
    | none => ({ s1 with isInteracting := false }, [])
  else (s, [])

/-- The `setTimeout` armed in `AudioHandler.startRecording`: after the
maximum duration, if still recording, call `stopRecording` and discard its
result. -/
def hardTimeout (s : AppState) : AppState :=
  if s.audio.isRecording then
    { s with audio := (AudioHandler.stopRecording s.audio).1 }
  else s

/-- The silence policy of the `node-record-lpcm16` recorder
(`endOnSilence: true`): on sustained sub-threshold audio the capture stream
ends and the captured bytes are flushed to `temp_recording.wav`. No handler
in audio_handler.js observes this end, so `isRecording` and every controller
flag are left untouched. -/
def silenceEnd (s : AppState) (bytes : Nat) : AppState :=
  { s with audio := { s.audio with fileData := some bytes } }

/-- `Array.prototype.indexOf` over a string list: index of the first
occurrence, `-1` if absent. -/
def jsIndexOf (l : List String) (x : String) : Int :=
  match l.findIdx? (· == x) with
  | some i => (i : Int)
  | none => -1

/-- `PunjabiPiApp.handleSwitchModelButtonPressed`: rejected (warn + error
sound) while `isInteracting`; otherwise advances `currentModel` cyclically
through `availableModels`, resets `conversationHistory` to `[]`, and
announces the switch. -/
def handleSwitchModelButtonPressed (s : AppState) (ttsOk : Bool) :
    AppState × List Action :=
  if s.isInteracting then
    (s, [Action.logWarn "Cannot switch model during an interaction.",
         Action.feedback "error"])
  else
    let nextIndex : Nat :=
      ((jsIndexOf availableModels s.currentModel + 1) %
        (availableModels.length : Int)).toNat
    let s1 := { s with currentModel := availableModels.getD nextIndex "",
                       conversationHistory := [] }
    let p := announceMessage s1 ("Switched to " ++ s1.currentModel ++ " model.")
      "en-US" (some ENGLISH_VOICE_NAME) ttsOk
    p

/-- `PunjabiPiApp.handleSwitchVoiceButtonPressed`: rejected while
`isInteracting`; otherwise advances the Punjabi voice index cyclically and
announces the switch. The conversation history is not touched. -/
def handleSwitchVoiceButtonPressed (s : AppState) (ttsOk : Bool) :
    AppState × List Action :=
  if s.isInteracting then
    (s, [Action.logWarn "Cannot switch voice during an interaction.",
         Action.feedback "error"])
  else
    let idx := (s.currentPunjabiVoiceIndex + 1) % PUNJABI_VOICE_NAMES.length
    let s1 := { s with currentPunjabiVoiceIndex := idx,
                       currentPunjabiVoice := PUNJABI_VOICE_NAMES.getD idx "" }
    let p := announceMessage s1
      ("Switched to Punjabi voice " ++ s1.currentPunjabiVoice ++ ".")
      "en-US" (some ENGLISH_VOICE_NAME) ttsOk
    p

/-- `PunjabiPiApp.cleanup` (the SIGINT/SIGTERM handler): `gpioHandler.cleanup()`
(status write 0, active write 0, unexport), then `audioHandler.cleanup()`,
then one more `setStatusLed(false)` — whose `writeSync` now throws on the
unexported line and is swallowed. Returns the ordered successful indicator
writes of the shutdown trace. -/
def cleanup (s : AppState) : AppState × List LedWrite :=
  let g := GpioHandler.cleanup s.gpio
  let a := AudioHandler.cleanup s.audio
  let g2 := GpioHandler.setStatusLedE g.1 false
  ({ s with gpio := g2.1, audio := a }, g.2 ++ g2.2)

end PunjabiPiApp

/-- The controller state after the `PunjabiPiApp` constructor ran with all
API keys configured: not interacting, model `"gpt"`, first Punjabi voice,
empty history, status LED on, active LED off, no recording. -/
def initState : AppState :=
  { aiKeys := { openaiOk := true, openrouterOk := true, fireworksOk := true }
    isInteracting := false
    currentModel := DEFAULT_MODEL
    currentPunjabiVoiceIndex := 0
    currentPunjabiVoice := "pa-IN-Standard-A"
    conversationHistory := []
    gpio := { exported := true, statusOn := true, activeOn := false }
    audio := { isRecording := false, hasRec := false,
               tempRecordingExists := false, tempPlaybackExists := false,
               fileData := none }
    pollArmed := false }

/-- A controller state mid-interaction (recording in progress): used to
instantiate theorems whose hypotheses require a non-`Idle` state. -/
def busyState : AppState :=
  { aiKeys := { openaiOk := true, openrouterOk := true, fireworksOk := true }
    isInteracting := true
    currentModel := "gpt"
    currentPunjabiVoiceIndex := 0
    currentPunjabiVoice := "pa-IN-Standard-A"
    conversationHistory := [⟨"user", "hi"⟩, ⟨"assistant", "hello"⟩]
    gpio := { exported := true, statusOn := true, activeOn := true }
    audio := { isRecording := true, hasRec := true,
               tempRecordingExists := true, tempPlaybackExists := false,
               fileData := some 3 }
    pollArmed := true }

/-- A concrete oracle with every external call succeeding. -/
def sampleOracle : Oracle :=
  { stt := some "hello", api := Except.ok "reply", ttsOk := true }

/-- A started capture session with 7 bytes already written to
`temp_recording.wav`. -/
def recSession : AudioState :=
  { isRecording := true, hasRec := true, tempRecordingExists := true,
    tempPlaybackExists := false, fileData := some 7 }

/-- The provider that `handleSwitchModelButtonPressed` selects next:
`availableModels[(availableModels.indexOf(current) + 1) % length]` with the
JavaScript `indexOf` convention (`-1` when absent). -/
def nextModelOf (m : String) : String :=
  availableModels.getD
    ((PunjabiPiApp.jsIndexOf availableModels m + 1) %
      (availableModels.length : Int)).toNat ""

/-- Oracle for an interaction whose provider API call fails (and whose STT
heard "hello"). -/
def inferFailOracle : Oracle :=
  { stt := some "hello", api := Except.error (), ttsOk := true }

/-- An oracle whose values are never consulted (the silence scenario reaches
no external call). -/
def oracleNone : Oracle :=
  { stt := none, api := Except.error (), ttsOk := false }

/-- The end-to-end silence scenario: record-button press from idle, capture
stream ends on silence (flushing 5 bytes), the hard duration timeout fires,
then the controller's 500 ms poll observes the stopped recording. -/
def silenceScenario : AppState × List Action :=
  let p1 := PunjabiPiApp.handleRecordButtonPressed initState oracleNone
  let s2 := PunjabiPiApp.silenceEnd p1.1 5
  let s3 := PunjabiPiApp.hardTimeout s2
  let p4 := PunjabiPiApp.pollTick s3 oracleNone
  (p4.1, p1.2 ++ p4.2)

/-- The reply string `processAudio` computes for transcript `t` in state `s`
with oracle `ora` (`getAiResponse` on the history with the user message
already pushed). -/
def respOf (s : AppState) (ora : Oracle) (t : String) : String :=
  AIServices.getAiResponse s.aiKeys t s.currentModel
    (s.conversationHistory ++ [⟨"user", t⟩]) ora.api

/-- The provider API outcome does not trim to a blank reply (every error
path of `getAiResponse` already yields a non-empty string, so this only
constrains the success case). -/
def replyNonblank (ora : Oracle) : Prop :=
  ∀ c, ora.api = Except.ok c → jsTrim c ≠ ""

/-- A failure-path input of `getAiResponse`: unsupported model name, missing
key/client for the selected provider, or a failed provider API call. -/
def failurePath (k : Keys) (model : String) (api : Except Unit String) : Prop :=
  (model ≠ "gpt" ∧ model ≠ "openrouter" ∧ model ≠ "fireworks")
  ∨ (model = "gpt" ∧ k.openaiOk = false)
  ∨ (model = "openrouter" ∧ k.openrouterOk = false)
  ∨ (model = "fireworks" ∧ k.fireworksOk = false)
  ∨ api = Except.error ()

/-- The fixed English error strings `getAiResponse` can return. -/
def errorMessageShape (model r : String) : Prop :=
  r = "OpenAI API key not configured or client not initialized."
  ∨ r = "OpenRouter API key not configured."
  ∨ r = "Fireworks AI API key not configured."
  ∨ r = "Error communicating with " ++ model ++ " API."
  ∨ r = "Unsupported AI model: " ++ model

/-- Fold `processAudio` over a list of per-session oracles. -/
def runSessions (s : AppState) (oras : List Oracle) : AppState :=
  oras.foldl (fun t o => (PunjabiPiApp.processAudio t o).1) s

/-- Six sessions: five with non-blank replies, then one whose provider reply
is whitespace only (so it trims to the empty string). -/
def capOracles : List Oracle :=
  [{ stt := some "u1", api := Except.ok "r1", ttsOk := false },
   { stt := some "u2", api := Except.ok "r2", ttsOk := false },
   { stt := some "u3", api := Except.ok "r3", ttsOk := false },
   { stt := some "u4", api := Except.ok "r4", ttsOk := false },
   { stt := some "u5", api := Except.ok "r5", ttsOk := false },
   { stt := some "u6", api := Except.ok " ", ttsOk := false }]

/-- A full-cap (ten-entry) conversation history. -/
def fullHist : List Msg :=
  [⟨"user", "a1"⟩, ⟨"assistant", "b1"⟩, ⟨"user", "a2"⟩, ⟨"assistant", "b2"⟩,
   ⟨"user", "a3"⟩, ⟨"assistant", "b3"⟩, ⟨"user", "a4"⟩, ⟨"assistant", "b4"⟩,
   ⟨"user", "a5"⟩, ⟨"assistant", "b5"⟩]

/-- The idle controller state with a full-cap history. -/
def fullHistState : AppState :=
  { initState with conversationHistory := fullHist }

/-- The controller state when no API key is configured. -/
def noKeyState : AppState :=
  { initState with
      aiKeys := { openaiOk := false, openrouterOk := false, fireworksOk := false } }

/-- Claim C1: while an interaction is in progress (`isInteracting`, the
code's marker for every non-`Idle` controller state), a record-button press
is a strict no-op: the whole controller state (hence `ConversationHistory`)
is unchanged and no capture is started. -/
theorem record_press_while_busy_noop (s : AppState) (ora : Oracle)
    (h : s.isInteracting = true) :
    (PunjabiPiApp.handleRecordButtonPressed s ora).1 = s ∧
    Action.startCapture ∉ (PunjabiPiApp.handleRecordButtonPressed s ora).2 ∧
    (PunjabiPiApp.handleRecordButtonPressed s ora).1.conversationHistory
      = s.conversationHistory := by
  simp [PunjabiPiApp.handleRecordButtonPressed, h]

theorem record_press_while_busy_noop_witness :
    busyState.isInteracting = true ∧
    ((PunjabiPiApp.handleRecordButtonPressed busyState sampleOracle).1 = busyState ∧
     Action.startCapture ∉
       (PunjabiPiApp.handleRecordButtonPressed busyState sampleOracle).2 ∧
     (PunjabiPiApp.handleRecordButtonPressed busyState sampleOracle).1.conversationHistory
       = busyState.conversationHistory) :=
  ⟨rfl, record_press_while_busy_noop busyState sampleOracle rfl⟩


/-- Claim C2 counterexample: for a started session, the first `stopRecording`
resolves with the captured data (`some 7`), but a subsequent invocation
returns `null` — not the same already-computed result, refuting the claim
that later callers receive the first call's result. -/
theorem stop_second_call_returns_null :
    (AudioHandler.stopRecording recSession).2 = some 7 ∧
    (AudioHandler.stopRecording (AudioHandler.stopRecording recSession).1).2 = none ∧
    (AudioHandler.stopRecording (AudioHandler.stopRecording recSession).1).2 ≠
      (AudioHandler.stopRecording recSession).2 := by
  decide

/-- Claim C2 (amended): for every started capture session only the first
`stopRecording` performs the teardown (clearing `isRecording` and resolving
with the captured file data); every invocation on a session that is no longer
recording is a side-effect-free no-op that returns `null` rather than the
already-computed result. -/
theorem stop_idempotent_teardown_once (a : AudioState)
    (h1 : a.isRecording = true) (h2 : a.hasRec = true) :
    (AudioHandler.stopRecording a).1.isRecording = false ∧
    (AudioHandler.stopRecording a).2 = a.fileData ∧
    ∀ b : AudioState, b.isRecording = false →
      AudioHandler.stopRecording b = (b, none) := by
  refine ⟨?_, ?_, ?_⟩
  · simp [AudioHandler.stopRecording, h1, h2]
  · simp [AudioHandler.stopRecording, h1, h2]
  · intro b hb
    simp [AudioHandler.stopRecording, hb]

theorem stop_idempotent_teardown_once_witness :
    recSession.isRecording = true ∧ recSession.hasRec = true ∧
    ((AudioHandler.stopRecording recSession).1.isRecording = false ∧
     (AudioHandler.stopRecording recSession).2 = recSession.fileData ∧
     ∀ b : AudioState, b.isRecording = false →
       AudioHandler.stopRecording b = (b, none)) :=
  ⟨rfl, rfl, stop_idempotent_teardown_once recSession rfl rfl⟩

/-- Claim C6: while an interaction is in progress, switch-provider and
switch-voice presses are rejected and leave the entire controller state —
in particular the model selection, the voice selection and the conversation
history — unchanged. -/
theorem switch_while_busy_rejected (s : AppState) (ttsOk : Bool)
    (h : s.isInteracting = true) :
    (PunjabiPiApp.handleSwitchModelButtonPressed s ttsOk).1 = s ∧
    (PunjabiPiApp.handleSwitchVoiceButtonPressed s ttsOk).1 = s ∧
    (PunjabiPiApp.handleSwitchModelButtonPressed s ttsOk).1.currentModel
      = s.currentModel ∧
    (PunjabiPiApp.handleSwitchVoiceButtonPressed s ttsOk).1.currentPunjabiVoiceIndex
      = s.currentPunjabiVoiceIndex ∧
    (PunjabiPiApp.handleSwitchModelButtonPressed s ttsOk).1.conversationHistory
      = s.conversationHistory ∧
    (PunjabiPiApp.handleSwitchVoiceButtonPressed s ttsOk).1.conversationHistory
      = s.conversationHistory := by
  simp [PunjabiPiApp.handleSwitchModelButtonPressed,
        PunjabiPiApp.handleSwitchVoiceButtonPressed, h]

theorem switch_while_busy_rejected_witness :
    busyState.isInteracting = true ∧
    ((PunjabiPiApp.handleSwitchModelButtonPressed busyState true).1 = busyState ∧
     (PunjabiPiApp.handleSwitchVoiceButtonPressed busyState true).1 = busyState ∧
     (PunjabiPiApp.handleSwitchModelButtonPressed busyState true).1.currentModel
       = busyState.currentModel ∧
     (PunjabiPiApp.handleSwitchVoiceButtonPressed busyState true).1.currentPunjabiVoiceIndex
       = busyState.currentPunjabiVoiceIndex ∧
     (PunjabiPiApp.handleSwitchModelButtonPressed busyState true).1.conversationHistory
       = busyState.conversationHistory ∧
     (PunjabiPiApp.handleSwitchVoiceButtonPressed busyState true).1.conversationHistory
       = busyState.conversationHistory) :=
  ⟨rfl, switch_while_busy_rejected busyState true rfl⟩


/-- Claim C7: a switch-provider press accepted while idle advances the
provider cyclically through `["gpt", "openrouter", "fireworks"]` (wrapping at
the end) and clears the conversation history in the same synchronous handler
— the post-state carries both updates (the handler is one uninterruptible
event-loop turn, so no inference can observe the new provider before the
clear). -/
theorem switch_model_while_idle_cycles_and_clears (s : AppState) (ttsOk : Bool)
    (h : s.isInteracting = false) :
    (PunjabiPiApp.handleSwitchModelButtonPressed s ttsOk).1.currentModel
      = nextModelOf s.currentModel ∧
    (PunjabiPiApp.handleSwitchModelButtonPressed s ttsOk).1.conversationHistory
      = [] ∧
    nextModelOf "gpt" = "openrouter" ∧
    nextModelOf "openrouter" = "fireworks" ∧
    nextModelOf "fireworks" = "gpt" := by
  refine ⟨?_, ?_, by decide, by decide, by decide⟩ <;>
    simp [PunjabiPiApp.handleSwitchModelButtonPressed,
          PunjabiPiApp.announceMessage, nextModelOf, h] <;>
    split <;> simp

theorem switch_model_while_idle_cycles_and_clears_witness :
    initState.isInteracting = false ∧
    ((PunjabiPiApp.handleSwitchModelButtonPressed initState true).1.currentModel
       = nextModelOf initState.currentModel ∧
     (PunjabiPiApp.handleSwitchModelButtonPressed initState true).1.conversationHistory
       = [] ∧
     nextModelOf "gpt" = "openrouter" ∧
     nextModelOf "openrouter" = "fireworks" ∧
     nextModelOf "fireworks" = "gpt") :=
  ⟨rfl, switch_model_while_idle_cycles_and_clears initState true rfl⟩


/-- Claim C3 (code bug, evaluated): when the inference call for the active
provider fails, `getAiResponse` returns the non-empty string
`"Error communicating with gpt API."`; the caller's `if (aiResponseText)`
check treats it as a successful reply, so the failed exchange IS appended to
the conversation history and the error text — not the fixed apology
`"Sorry, I could not process that."` — is what gets spoken. Only the final
conjunct of the claim (the controller returns to idle) holds. -/
theorem inference_failure_spoken_as_reply :
    (PunjabiPiApp.processAudio initState inferFailOracle).1.conversationHistory
      = [⟨"user", "hello"⟩,
         ⟨"assistant", "Error communicating with gpt API."⟩] ∧
    (PunjabiPiApp.processAudio initState inferFailOracle).2
      = [Action.sttCall, Action.inferCall "gpt",
         Action.speak "Error communicating with gpt API." "pa-IN"
           "pa-IN-Standard-A"] ∧
    (PunjabiPiApp.processAudio initState inferFailOracle).1.isInteracting
      = false := by
  decide


/-- Claim C5 (code bug, evaluated): in the silence-terminated session the
capture is started and is indeed stopped (by the hard timeout — the silence
end itself never clears `isRecording`), the active indicator ends off and the
controller returns to idle; but the complete list of observable actions of
the whole session is `[startCapture]`: no speech-to-text call, no inference,
no synthesis, and no spoken "no speech" outcome ever happens, because the
controller's own `stopRecording` call returns `null` (the data was already
taken and discarded by the timeout's stop). -/
theorem silence_session_produces_no_outcome :
    (PunjabiPiApp.handleRecordButtonPressed initState oracleNone).1.audio.isRecording
      = true ∧
    (PunjabiPiApp.hardTimeout (PunjabiPiApp.silenceEnd
        (PunjabiPiApp.handleRecordButtonPressed initState oracleNone).1 5)).audio.isRecording
      = false ∧
    silenceScenario.1.isInteracting = false ∧
    silenceScenario.1.gpio.activeOn = false ∧
    silenceScenario.2 = [Action.startCapture] := by
  decide

/-- Claim C8 counterexample: `stopRecording` on a started session returns
with `temp_recording.wav` still on disk — the deletion the claim requires
("before the stop call returns") is commented out in the source. -/
theorem temp_recording_file_survives_stop :
    recSession.tempRecordingExists = true ∧
    (AudioHandler.stopRecording recSession).1.tempRecordingExists = true := by
  decide

/-- Claim C8 (amended): `stopRecording` never deletes the temporary
recording file on any path; that file is deleted only by
`AudioHandler.cleanup`, which is idempotent and tolerates being invoked when
nothing remains to clean; the temporary playback file, in contrast, is
deleted by `playAudioMp3` itself once playback completes. -/
theorem temp_file_cleanup_amended :
    (∀ a : AudioState,
      (AudioHandler.stopRecording a).1.tempRecordingExists
        = a.tempRecordingExists) ∧
    (∀ a : AudioState, (AudioHandler.cleanup a).tempRecordingExists = false) ∧
    (∀ a : AudioState, a.tempRecordingExists = false →
      AudioHandler.cleanup a = a) ∧
    (∀ (a : AudioState) (n : Nat), n ≠ 0 →
      (AudioHandler.playAudioMp3 a (some n)).tempPlaybackExists = false) := by
  refine ⟨?_, ?_, ?_, ?_⟩
  · intro a
    unfold AudioHandler.stopRecording
    split <;> rfl
  · intro a
    rfl
  · intro a h
    cases a
    simp_all [AudioHandler.cleanup]
  · intro a n h
    simp [AudioHandler.playAudioMp3, h]

theorem temp_file_cleanup_amended_witness :
    initState.audio.tempRecordingExists = false ∧
    AudioHandler.cleanup initState.audio = initState.audio ∧
    (AudioHandler.playAudioMp3 initState.audio (some 5)).tempPlaybackExists
      = false :=
  ⟨rfl, temp_file_cleanup_amended.2.2.1 initState.audio rfl,
   temp_file_cleanup_amended.2.2.2 initState.audio 5 (by decide)⟩

/-- Claim C9 counterexample: in the shutdown trace from a running state the
successful indicator writes are `[status := off, active := off]` — the LAST
indicator switched off is the active one, because `GpioHandler.cleanup`
writes the status line first and the controller's later `setStatusLed(false)`
throws on the already-unexported line. This refutes "the status indicator is
the last thing turned off" / "active is switched off no later than status". -/
theorem active_led_turned_off_after_status :
    (PunjabiPiApp.cleanup busyState).2
      = [LedWrite.status false, LedWrite.active false] ∧
    (PunjabiPiApp.cleanup busyState).2.getLast? = some (LedWrite.active false) ∧
    LedWrite.active false ≠ LedWrite.status false := by
  decide

theorem str_append_ne_empty (a b : String) (h : a.data ≠ []) : a ++ b ≠ "" := by
  intro hab
  apply h
  have hd := congrArg String.data hab
  rw [String.data_append] at hd
  exact (List.append_eq_nil.mp hd).1

theorem mid_append_ne_empty (a m b : String) (h : a.data ≠ []) :
    a ++ m ++ b ≠ "" := by
  apply str_append_ne_empty
  intro hnil
  rw [String.data_append] at hnil
  exact h (List.append_eq_nil.mp hnil).1

theorem errorMessageShape_ne_empty (m r : String)
    (h : errorMessageShape m r) : r ≠ "" := by
  rcases h with h | h | h | h | h <;> subst h
  · decide
  · decide
  · decide
  · exact mid_append_ne_empty _ _ _ (by decide)
  · exact str_append_ne_empty _ _ (by decide)

theorem getAiResponse_ne_empty (k : Keys) (p m : String) (hist : List Msg)
    (api : Except Unit String) (hn : ∀ c, api = Except.ok c → jsTrim c ≠ "") :
    AIServices.getAiResponse k p m hist api ≠ "" := by
  unfold AIServices.getAiResponse
  split_ifs
  all_goals
    first
      | decide
      | exact str_append_ne_empty _ _ (by decide)
      | (cases api with
          | ok c => exact hn c rfl
          | error _ => exact mid_append_ne_empty _ _ _ (by decide))

theorem getAiResponse_failure_shape (k : Keys) (p m : String) (hist : List Msg)
    (api : Except Unit String) (hf : failurePath k m api) :
    errorMessageShape m (AIServices.getAiResponse k p m hist api) := by
  unfold AIServices.getAiResponse errorMessageShape
  rcases hf with ⟨h1, h2, h3⟩ | ⟨h1, h2⟩ | ⟨h1, h2⟩ | ⟨h1, h2⟩ | h1
  · rw [if_neg h1, if_neg h2, if_neg h3]
    exact Or.inr (Or.inr (Or.inr (Or.inr rfl)))
  · subst h1
    rw [if_pos rfl, if_pos (by simp [h2])]
    exact Or.inl rfl
  · subst h1
    rw [if_neg (by decide), if_pos rfl, if_pos (by simp [h2])]
    exact Or.inr (Or.inl rfl)
  · subst h1
    rw [if_neg (by decide), if_neg (by decide), if_pos rfl, if_pos (by simp [h2])]
    exact Or.inr (Or.inr (Or.inl rfl))
  · subst h1
    by_cases hg : m = "gpt"
    · subst hg
      rw [if_pos rfl]
      by_cases hk : k.openaiOk
      · rw [if_neg (by simp [hk])]
        exact Or.inr (Or.inr (Or.inr (Or.inl rfl)))
      · rw [if_pos (by simp [hk])]
        exact Or.inl rfl
    · rw [if_neg hg]
      by_cases ho : m = "openrouter"
      · subst ho
        rw [if_pos rfl]
        by_cases hk : k.openrouterOk
        · rw [if_neg (by simp [hk])]
          exact Or.inr (Or.inr (Or.inr (Or.inl rfl)))
        · rw [if_pos (by simp [hk])]
          exact Or.inr (Or.inl rfl)
      · rw [if_neg ho]
        by_cases hw : m = "fireworks"
        · subst hw
          rw [if_pos rfl]
          by_cases hk : k.fireworksOk
          · rw [if_neg (by simp [hk])]
            exact Or.inr (Or.inr (Or.inr (Or.inl rfl)))
          · rw [if_pos (by simp [hk])]
            exact Or.inr (Or.inr (Or.inl rfl))
        · rw [if_neg hw]
          exact Or.inr (Or.inr (Or.inr (Or.inr rfl)))

theorem announceMessage_history (s : AppState) (text lang : String)
    (voice : Option String) (tts : Bool) :
    (PunjabiPiApp.announceMessage s text lang voice tts).1.conversationHistory
      = s.conversationHistory := by
  unfold PunjabiPiApp.announceMessage
  dsimp only
  split <;> rfl

theorem announceMessage_gpio (s : AppState) (text lang : String)
    (voice : Option String) (tts : Bool) :
    (PunjabiPiApp.announceMessage s text lang voice tts).1.gpio = s.gpio := by
  unfold PunjabiPiApp.announceMessage
  dsimp only
  split <;> rfl

theorem finishInteraction_history (s : AppState) :
    (PunjabiPiApp.finishInteraction s).conversationHistory
      = s.conversationHistory := rfl

theorem setActiveLed_statusOn (g : GpioState) (b : Bool) :
    (GpioHandler.setActiveLed g b).statusOn = g.statusOn := by
  unfold GpioHandler.setActiveLed
  split <;> rfl

theorem finishInteraction_statusOn (s : AppState) :
    (PunjabiPiApp.finishInteraction s).gpio.statusOn = s.gpio.statusOn := by
  simp [PunjabiPiApp.finishInteraction, setActiveLed_statusOn]

theorem processAudio_statusOn (s : AppState) (ora : Oracle) :
    (PunjabiPiApp.processAudio s ora).1.gpio.statusOn = s.gpio.statusOn := by
  unfold PunjabiPiApp.processAudio
  cases hstt : ora.stt with
  | none =>
    simp [finishInteraction_statusOn, announceMessage_gpio]
  | some t =>
    by_cases ht : t ≠ "" <;>
      simp [ht, finishInteraction_statusOn, announceMessage_gpio] <;>
      split <;>
      simp [finishInteraction_statusOn, announceMessage_gpio]

theorem pollTick_statusOn (s : AppState) (ora : Oracle) :
    (PunjabiPiApp.pollTick s ora).1.gpio.statusOn = s.gpio.statusOn := by
  unfold PunjabiPiApp.pollTick
  split
  · dsimp only
    split
    · rw [processAudio_statusOn]
      simp [setActiveLed_statusOn]
    · simp [setActiveLed_statusOn]
  · rfl

theorem handleRecordButtonPressed_statusOn (s : AppState) (ora : Oracle) :
    (PunjabiPiApp.handleRecordButtonPressed s ora).1.gpio.statusOn
      = s.gpio.statusOn := by
  unfold PunjabiPiApp.handleRecordButtonPressed
  split
  · rfl
  · split
    · dsimp only
      split
      · rw [processAudio_statusOn]
        simp [setActiveLed_statusOn]
      · simp [setActiveLed_statusOn]
    · simp [setActiveLed_statusOn]

theorem handleSwitchModelButtonPressed_statusOn (s : AppState) (tts : Bool) :
    (PunjabiPiApp.handleSwitchModelButtonPressed s tts).1.gpio.statusOn
      = s.gpio.statusOn := by
  unfold PunjabiPiApp.handleSwitchModelButtonPressed
  split
  · rfl
  · rw [announceMessage_gpio]

theorem handleSwitchVoiceButtonPressed_statusOn (s : AppState) (tts : Bool) :
    (PunjabiPiApp.handleSwitchVoiceButtonPressed s tts).1.gpio.statusOn
      = s.gpio.statusOn := by
  unfold PunjabiPiApp.handleSwitchVoiceButtonPressed
  split
  · rfl
  · rw [announceMessage_gpio]

theorem hardTimeout_statusOn (s : AppState) :
    (PunjabiPiApp.hardTimeout s).gpio.statusOn = s.gpio.statusOn := by
  unfold PunjabiPiApp.hardTimeout
  split <;> rfl

/-- Claim C9 (amended): the status indicator stays untouched (hence on, once
lit at startup) through every normal controller operation; the shutdown
cleanup pass turns both indicators off and deletes the temporary recording
file — but the successful indicator writes are, in order, status-off then
active-off: the status indicator is switched off FIRST, not last (the
controller's final `setStatusLed(false)` comes after the lines are
unexported and has no effect). -/
theorem shutdown_turns_both_leds_off (s : AppState)
    (h : s.gpio.exported = true) :
    (PunjabiPiApp.cleanup s).1.gpio.statusOn = false ∧
    (PunjabiPiApp.cleanup s).1.gpio.activeOn = false ∧
    (PunjabiPiApp.cleanup s).2
      = [LedWrite.status false, LedWrite.active false] ∧
    (PunjabiPiApp.cleanup s).1.audio.tempRecordingExists = false ∧
    (∀ (s' : AppState) (ora : Oracle),
      (PunjabiPiApp.handleRecordButtonPressed s' ora).1.gpio.statusOn
        = s'.gpio.statusOn) ∧
    (∀ (s' : AppState) (ora : Oracle),
      (PunjabiPiApp.processAudio s' ora).1.gpio.statusOn = s'.gpio.statusOn) ∧
    (∀ (s' : AppState) (ora : Oracle),
      (PunjabiPiApp.pollTick s' ora).1.gpio.statusOn = s'.gpio.statusOn) ∧
    (∀ (s' : AppState) (tts : Bool),
      (PunjabiPiApp.handleSwitchModelButtonPressed s' tts).1.gpio.statusOn
        = s'.gpio.statusOn) ∧
    (∀ (s' : AppState) (tts : Bool),
      (PunjabiPiApp.handleSwitchVoiceButtonPressed s' tts).1.gpio.statusOn
        = s'.gpio.statusOn) ∧
    (∀ s' : AppState,
      (PunjabiPiApp.hardTimeout s').gpio.statusOn = s'.gpio.statusOn) := by
  refine ⟨?_, ?_, ?_, ?_,
          handleRecordButtonPressed_statusOn, processAudio_statusOn,
          pollTick_statusOn, handleSwitchModelButtonPressed_statusOn,
          handleSwitchVoiceButtonPressed_statusOn, hardTimeout_statusOn⟩ <;>
    simp [PunjabiPiApp.cleanup, GpioHandler.cleanup, GpioHandler.setStatusLedE,
          AudioHandler.cleanup, h]

theorem shutdown_turns_both_leds_off_witness :
    busyState.gpio.exported = true ∧
    ((PunjabiPiApp.cleanup busyState).1.gpio.statusOn = false ∧
     (PunjabiPiApp.cleanup busyState).1.gpio.activeOn = false ∧
     (PunjabiPiApp.cleanup busyState).2
       = [LedWrite.status false, LedWrite.active false] ∧
     (PunjabiPiApp.cleanup busyState).1.audio.tempRecordingExists = false ∧
     (∀ (s' : AppState) (ora : Oracle),
       (PunjabiPiApp.handleRecordButtonPressed s' ora).1.gpio.statusOn
         = s'.gpio.statusOn) ∧
     (∀ (s' : AppState) (ora : Oracle),
       (PunjabiPiApp.processAudio s' ora).1.gpio.statusOn = s'.gpio.statusOn) ∧
     (∀ (s' : AppState) (ora : Oracle),
       (PunjabiPiApp.pollTick s' ora).1.gpio.statusOn = s'.gpio.statusOn) ∧
     (∀ (s' : AppState) (tts : Bool),
       (PunjabiPiApp.handleSwitchModelButtonPressed s' tts).1.gpio.statusOn
         = s'.gpio.statusOn) ∧
     (∀ (s' : AppState) (tts : Bool),
       (PunjabiPiApp.handleSwitchVoiceButtonPressed s' tts).1.gpio.statusOn
         = s'.gpio.statusOn) ∧
     (∀ s' : AppState,
       (PunjabiPiApp.hardTimeout s').gpio.statusOn = s'.gpio.statusOn)) :=
  ⟨rfl, shutdown_turns_both_leds_off busyState rfl⟩

/-- Claim C4 counterexample: starting from an empty history, five exchanges
with non-blank replies fill the history to 10 entries; a sixth session whose
provider reply is whitespace (so it trims to the empty string, making
`if (aiResponseText)` false) pushes the user message without running the cap
check, leaving the history at 11 entries — more than the claimed cap of 10. -/
theorem history_cap_exceeded_on_blank_reply :
    (runSessions initState capOracles).conversationHistory.length = 11 ∧
    10 < (runSessions initState capOracles).conversationHistory.length := by
  decide

/-- The last appended pair survives the `slice(-10)` trim. -/
theorem mem_last_after_cap (l : List Msg) (x : Msg) :
    x ∈ (if (l ++ [x]).length > 10 then
           (l ++ [x]).drop ((l ++ [x]).length - 10)
         else l ++ [x]) := by
  split
  · next hgt =>
    rw [List.drop_append_eq_append_drop]
    apply List.mem_append_right
    have h0 : (l ++ [x]).length - 10 - l.length = 0 := by
      simp only [List.length_append, List.length_cons, List.length_nil]
      omega
    rw [h0]
    simp
  · exact List.mem_append_right _ (by simp)

/-- Claim C4 (amended): provided the provider reply never trims to the empty
string (all error strings are non-empty, so this only excludes a
whitespace-only success), a `processAudio` run keeps the history at or below
10 entries; and from a full (10-entry) history a completed exchange yields
exactly the old history minus its two oldest entries followed by the new
user/assistant pair — FIFO eviction with the newest entry present. -/
theorem history_cap_amended :
    (∀ (s : AppState) (ora : Oracle), s.conversationHistory.length ≤ 10 →
      replyNonblank ora →
      (PunjabiPiApp.processAudio s ora).1.conversationHistory.length ≤ 10) ∧
    (∀ (s : AppState) (ora : Oracle) (t : String),
      s.conversationHistory.length = 10 → ora.stt = some t → t ≠ "" →
      replyNonblank ora →
      (PunjabiPiApp.processAudio s ora).1.conversationHistory
        = s.conversationHistory.drop 2 ++
            [⟨"user", t⟩, ⟨"assistant", respOf s ora t⟩] ∧
      Msg.mk "assistant" (respOf s ora t) ∈
        (PunjabiPiApp.processAudio s ora).1.conversationHistory) := by
  constructor
  · intro s ora hlen hnb
    unfold PunjabiPiApp.processAudio
    cases hstt : ora.stt with
    | none =>
      rw [finishInteraction_history, announceMessage_history]
      exact hlen
    | some t =>
      dsimp only
      by_cases ht : t = ""
      · rw [if_neg (by simp [ht])]
        rw [finishInteraction_history, announceMessage_history]
        exact hlen
      · rw [if_pos ht]
        have hresp : AIServices.getAiResponse s.aiKeys t s.currentModel
            (s.conversationHistory ++ [⟨"user", t⟩]) ora.api ≠ "" :=
          getAiResponse_ne_empty _ _ _ _ _ (fun c hc => hnb c hc)
        try dsimp only
        rw [if_pos hresp]
        dsimp only
        rw [finishInteraction_history, announceMessage_history]
        dsimp only
        split
        · simp only [List.length_drop]
          omega
        · next hle =>
          omega
  · intro s ora t hlen hstt ht hnb
    have hresp : AIServices.getAiResponse s.aiKeys t s.currentModel
        (s.conversationHistory ++ [⟨"user", t⟩]) ora.api ≠ "" :=
      getAiResponse_ne_empty _ _ _ _ _ (fun c hc => hnb c hc)
    have heq : (PunjabiPiApp.processAudio s ora).1.conversationHistory
        = s.conversationHistory.drop 2 ++
            [⟨"user", t⟩, ⟨"assistant", respOf s ora t⟩] := by
      unfold PunjabiPiApp.processAudio respOf
      rw [hstt]
      dsimp only
      rw [if_pos ht]
      try dsimp only
      rw [if_pos hresp]
      dsimp only
      rw [finishInteraction_history, announceMessage_history]
      dsimp only
      rw [if_pos (by simp [List.length_append, hlen])]
      have e1 : ((s.conversationHistory ++ [(⟨"user", t⟩ : Msg)]) ++
          [(⟨"assistant", AIServices.getAiResponse s.aiKeys t s.currentModel
              (s.conversationHistory ++ [⟨"user", t⟩]) ora.api⟩ : Msg)]).length - 10
          = 2 := by
        simp [List.length_append, hlen]
      rw [e1, List.drop_append_eq_append_drop, List.drop_append_eq_append_drop]
      have e2 : 2 - s.conversationHistory.length = 0 := by omega
      have e3 : 2 - (s.conversationHistory ++ [(⟨"user", t⟩ : Msg)]).length = 0 := by
        simp [List.length_append, hlen]
      rw [e2, e3]
      simp
    refine ⟨heq, ?_⟩
    rw [heq]
    simp

theorem history_cap_amended_witness :
    fullHistState.conversationHistory.length = 10 ∧
    ((PunjabiPiApp.processAudio fullHistState sampleOracle).1.conversationHistory
       = fullHistState.conversationHistory.drop 2 ++
           [⟨"user", "hello"⟩,
            ⟨"assistant", respOf fullHistState sampleOracle "hello"⟩] ∧
     Msg.mk "assistant" (respOf fullHistState sampleOracle "hello") ∈
       (PunjabiPiApp.processAudio fullHistState sampleOracle).1.conversationHistory) :=
  ⟨rfl,
   history_cap_amended.2 fullHistState sampleOracle "hello" rfl rfl (by decide)
     (fun c hc => by
       injection hc with h
       subst h
       decide)⟩

/-- Claim C10: on every failure path of `getAiResponse` (missing key/client,
unsupported model name, failed provider API call) the function returns — it
never throws — and the returned value is one of the fixed non-empty English
error strings; being a non-empty string it passes the caller's
`if (aiResponseText)` truthiness check, so `processAudio` consumes it as a
successful reply: it is appended to the conversation history as the
assistant message and (when synthesis succeeds) spoken aloud. -/
theorem ai_failure_returned_as_reply (s : AppState) (ora : Oracle) (t : String)
    (hfail : failurePath s.aiKeys s.currentModel ora.api)
    (hstt : ora.stt = some t) (ht : t ≠ "") :
    respOf s ora t ≠ "" ∧
    errorMessageShape s.currentModel (respOf s ora t) ∧
    Msg.mk "assistant" (respOf s ora t) ∈
      (PunjabiPiApp.processAudio s ora).1.conversationHistory ∧
    (ora.ttsOk = true →
      Action.speak (respOf s ora t) OUTPUT_LANGUAGE_CODE s.currentPunjabiVoice
        ∈ (PunjabiPiApp.processAudio s ora).2) := by
  have hshape : errorMessageShape s.currentModel (respOf s ora t) := by
    unfold respOf
    exact getAiResponse_failure_shape _ _ _ _ _ hfail
  have hresp : respOf s ora t ≠ "" := errorMessageShape_ne_empty _ _ hshape
  have hresp' : AIServices.getAiResponse s.aiKeys t s.currentModel
      (s.conversationHistory ++ [⟨"user", t⟩]) ora.api ≠ "" := hresp
  refine ⟨hresp, hshape, ?_, ?_⟩
  · simp only [respOf]
    unfold PunjabiPiApp.processAudio
    rw [hstt]
    dsimp only
    rw [if_pos ht]
    try dsimp only
    rw [if_pos hresp']
    dsimp only
    rw [finishInteraction_history, announceMessage_history]
    dsimp only
    exact mem_last_after_cap _ _
  · intro htts
    simp only [respOf]
    unfold PunjabiPiApp.processAudio
    rw [hstt]
    dsimp only
    rw [if_pos ht]
    try dsimp only
    rw [if_pos hresp']
    dsimp only
    unfold PunjabiPiApp.announceMessage
    dsimp only
    rw [if_pos ⟨htts, hresp'⟩]
    simp

theorem ai_failure_returned_as_reply_witness :
    failurePath noKeyState.aiKeys noKeyState.currentModel sampleOracle.api ∧
    sampleOracle.stt = some "hello" ∧
    (respOf noKeyState sampleOracle "hello" ≠ "" ∧
     errorMessageShape noKeyState.currentModel
       (respOf noKeyState sampleOracle "hello") ∧
     Msg.mk "assistant" (respOf noKeyState sampleOracle "hello") ∈
       (PunjabiPiApp.processAudio noKeyState sampleOracle).1.conversationHistory ∧
     (sampleOracle.ttsOk = true →
       Action.speak (respOf noKeyState sampleOracle "hello")
         OUTPUT_LANGUAGE_CODE noKeyState.currentPunjabiVoice
         ∈ (PunjabiPiApp.processAudio noKeyState sampleOracle).2)) :=
  ⟨Or.inr (Or.inl ⟨rfl, rfl⟩), rfl,
   ai_failure_returned_as_reply noKeyState sampleOracle "hello"
     (Or.inr (Or.inl ⟨rfl, rfl⟩)) rfl (by decide)⟩

end PunjabiSts
